import Mathlib

/-!
Verification of `official/transformer/utils/schedule.py` (the `Manager`
class, which abstracts training on a step or epoch basis).

The Python code is shallowly embedded: machine integers become `Nat`
(all the quantities involved are non-negative counts), nullable values
become `Option Nat`, and fallible operations return
`Except SchedError`.  Python's `//` and `%` raise `ZeroDivisionError`
on a zero divisor, so they are embedded as fallible operations.  The
spec's error taxonomy is used for the error constructors: the
`ValueError` raised when both bases are supplied and the failing
construction-time `assert` both surface as `invalidConfiguration`, the
failing `assert` inside `epochs_to_steps` surfaces as
`preconditionViolation`.

The external example-count table `dataset.NUM_EXAMPLES` (module
`official/transformer/utils/dataset`, an external collaborator of this
component) is passed everywhere as an explicit parameter
`ex : Mode → Nat`.
-/

namespace Schedule

/-- Estimator mode keys (`tf.estimator.ModeKeys.TRAIN` / `.EVAL`),
the keys of the example-count table. -/
inductive Mode : Type
  | TRAIN : Mode
  | EVAL : Mode
deriving DecidableEq, Repr

/-- Failure outcomes of the embedded Python code.
`invalidConfiguration` stands for the construction-time failures
(the explicit `ValueError` and the shard-divisibility `assert`);
`preconditionViolation` stands for the `assert self.use_tpu` inside
`epochs_to_steps`; `zeroDivisionError` and `typeError` stand for the
Python exceptions of the same names. -/
inductive SchedError : Type
  | invalidConfiguration : SchedError
  | preconditionViolation : SchedError
  | zeroDivisionError : SchedError
  | typeError : SchedError
deriving DecidableEq, Repr

/-- Python `a // b` on non-negative integers: floor division, raising
`ZeroDivisionError` when `b = 0`. -/
def pyFloorDiv (a b : Nat) : Except SchedError Nat :=
  if b = 0 then .error .zeroDivisionError else .ok (a / b)

/-- Python `a % b` on non-negative integers, raising
`ZeroDivisionError` when `b = 0`. -/
def pyMod (a b : Nat) : Except SchedError Nat :=
  if b = 0 then .error .zeroDivisionError else .ok (a % b)

/-- Python `math.ceil(a / b)` on non-negative integers, raising
`ZeroDivisionError` when `b = 0`.  The true (float) division followed
by `math.ceil` is modelled as exact ceiling division. -/
def pyCeilDiv (a b : Nat) : Except SchedError Nat :=
  if b = 0 then .error .zeroDivisionError else .ok ((a + b - 1) / b)

/-- Python truthiness of a nullable integer: `None` and `0` are falsy,
every other value is truthy. -/
def truthy : Option Nat → Bool
  | none => false
  | some n => n != 0

/-- Python `x or d` for a nullable integer `x`: the first truthy
operand, i.e. `d` when `x` is `None` or `0`. -/
def pyOrDefault : Option Nat → Nat → Nat
  | none, d => d
  | some n, d => if n = 0 then d else n

/-- Python `"{}".format(x)` for a nullable integer: `None` prints as
the string `"None"`. -/
def pyFormat : Option Nat → String
  | none => "None"
  | some n => toString n

/-- The state of a constructed `schedule.Manager`: the fields stored
by `Manager.__init__`. -/
structure Manager : Type where
  train_eval_iterations : Nat
  _single_iteration_train_steps : Option Nat
  _single_iteration_train_epochs : Option Nat
  max_length : Nat
  batch_size : Nat
  use_tpu : Bool
  num_tpu_shards : Nat
deriving DecidableEq, Repr

/-- The final guard of `Manager.__init__`:
`if self.use_tpu: assert (batch_size // max_length) % num_tpu_shards == 0`.
A failing assert surfaces as `invalidConfiguration` (the spec's name
for construction-time validation failures). -/
def tpuShardCheck (batch_size max_length : Nat) (use_tpu : Bool)
    (num_tpu_shards : Nat) : Except SchedError Unit :=
  if use_tpu then
    match pyFloorDiv batch_size max_length with
    | .error e => .error e
    | .ok q =>
      match pyMod q num_tpu_shards with
      | .error e => .error e
      | .ok r =>
        if r = 0 then .ok () else .error .invalidConfiguration
  else .ok ()

/-- `Manager.__init__`: validates the configuration and builds the
manager state.  Mirrors the Python line by line:
raise `ValueError` when both `train_steps` and `train_epochs` are
truthy; choose the step basis when `train_steps` is truthy and the
epoch basis otherwise (defaulting `train_epochs` via Python `or`);
store the remaining fields; and under `use_tpu` assert
`(batch_size // max_length) % num_tpu_shards == 0`
(the `tpuShardCheck` guard). -/
def Manager.init (train_steps : Option Nat) (steps_between_evals : Nat)
    (train_epochs : Option Nat) (epochs_between_evals : Nat)
    (default_train_epochs : Nat) (batch_size : Nat) (max_length : Nat)
    (use_tpu : Bool) (num_tpu_shards : Nat) : Except SchedError Manager :=
  if truthy train_steps && truthy train_epochs then
    .error .invalidConfiguration
  else
    let core : Except SchedError (Nat × Option Nat × Option Nat) :=
      if truthy train_steps then
        match pyFloorDiv (train_steps.getD 0) steps_between_evals with
        | .error e => .error e
        | .ok i => .ok (i, some steps_between_evals, none)
      else
        match pyFloorDiv (pyOrDefault train_epochs default_train_epochs)
            epochs_between_evals with
        | .error e => .error e
        | .ok i => .ok (i, none, some epochs_between_evals)
    match core with
    | .error e => .error e
    | .ok (i, ss, se) =>
      match tpuShardCheck batch_size max_length use_tpu num_tpu_shards with
      | .error e => .error e
      | .ok _ =>
        .ok ⟨i, ss, se, max_length, batch_size, use_tpu, num_tpu_shards⟩

/-- `Manager.epochs_to_steps`: asserts `use_tpu`, then returns
`dataset.NUM_EXAMPLES[mode] * max_length * num_epochs // batch_size`. -/
def Manager.epochs_to_steps (ex : Mode → Nat) (m : Manager)
    (num_epochs : Nat) (mode : Mode) : Except SchedError Nat :=
  if !m.use_tpu then .error .preconditionViolation
  else pyFloorDiv (ex mode * m.max_length * num_epochs) m.batch_size

/-- The `single_iteration_train_steps` property: returns the stored
step count when it is truthy or when not on TPU; otherwise converts
the stored epoch count (Python would hit a `TypeError` were it
`None`). -/
def Manager.single_iteration_train_steps (ex : Mode → Nat) (m : Manager) :
    Except SchedError (Option Nat) :=
  if truthy m._single_iteration_train_steps || !m.use_tpu then
    .ok m._single_iteration_train_steps
  else
    match m._single_iteration_train_epochs with
    | none => .error .typeError
    | some e => (m.epochs_to_steps ex e Mode.TRAIN).map some

/-- The `single_iteration_eval_steps` property: `None` when not on
TPU, otherwise the conversion of exactly one epoch in EVAL mode. -/
def Manager.single_iteration_eval_steps (ex : Mode → Nat) (m : Manager) :
    Except SchedError (Option Nat) :=
  if !m.use_tpu then .ok none
  else (m.epochs_to_steps ex 1 Mode.EVAL).map some

/-- The `train_increment_str` property: one of three progress
strings, selected by the truthiness of the stored step count and by
`use_tpu`. -/
def Manager.train_increment_str (ex : Mode → Nat) (m : Manager) :
    Except SchedError String :=
  if truthy m._single_iteration_train_steps then
    .ok (pyFormat m._single_iteration_train_steps ++ " steps.")
  else if !m.use_tpu then
    .ok (pyFormat m._single_iteration_train_epochs ++ " epochs.")
  else
    match m.single_iteration_train_steps ex with
    | .error e => .error e
    | .ok v =>
      .ok ("~" ++ pyFormat m._single_iteration_train_epochs ++
        " epochs. (" ++ pyFormat v ++ " steps)")

/-- The `repeat_dataset` property: when the epoch field is `None` and
the stored step count exceeds `dataset.NUM_EXAMPLES[TRAIN]`, return
`math.ceil(steps / NUM_EXAMPLES[TRAIN])`; otherwise return the epoch
field (comparing `None > int` in Python raises `TypeError`). -/
def Manager.repeat_dataset (ex : Mode → Nat) (m : Manager) :
    Except SchedError (Option Nat) :=
  match m._single_iteration_train_epochs with
  | none =>
    match m._single_iteration_train_steps with
    | none => .error .typeError
    | some s =>
      if s > ex Mode.TRAIN then (pyCeilDiv s (ex Mode.TRAIN)).map some
      else .ok none
  | some e => .ok (some e)

/-- The shard check is a no-op when `use_tpu` is false. -/
theorem tpuShardCheck_false (bs ml sc : Nat) :
    tpuShardCheck bs ml false sc = .ok () := rfl

/-- With non-zero divisors, the shard check under TPU reduces to the
divisibility test. -/
theorem tpuShardCheck_true (bs ml sc : Nat) (hml : ml ≠ 0) (hsc : sc ≠ 0) :
    tpuShardCheck bs ml true sc =
      if bs / ml % sc = 0 then .ok () else .error .invalidConfiguration := by
  unfold tpuShardCheck
  simp only [pyFloorDiv, pyMod, hml, hsc, if_false, if_true, ite_true]

/-- Step-basis construction: with `train_steps` truthy, `train_epochs`
not truthy and a non-zero step cadence, construction reduces to the
shard check followed by the step-basis record. -/
theorem init_steps_eq (ts : Option Nat) (sbe : Nat) (te : Option Nat)
    (ebe dte bs ml : Nat) (tpu : Bool) (sc : Nat)
    (h1 : truthy ts = true) (h2 : truthy te = false) (hsbe : sbe ≠ 0) :
    Manager.init ts sbe te ebe dte bs ml tpu sc =
      match tpuShardCheck bs ml tpu sc with
      | .error e => .error e
      | .ok _ => .ok ⟨ts.getD 0 / sbe, some sbe, none, ml, bs, tpu, sc⟩ := by
  unfold Manager.init
  simp only [h1, h2, Bool.and_false, Bool.false_eq_true, if_false, if_true,
    pyFloorDiv, hsbe, ite_true]

/-- Epoch-basis construction: with `train_steps` not truthy and a
non-zero epoch cadence, construction reduces to the shard check
followed by the epoch-basis record. -/
theorem init_epochs_eq (ts : Option Nat) (sbe : Nat) (te : Option Nat)
    (ebe dte bs ml : Nat) (tpu : Bool) (sc : Nat)
    (h1 : truthy ts = false) (hebe : ebe ≠ 0) :
    Manager.init ts sbe te ebe dte bs ml tpu sc =
      match tpuShardCheck bs ml tpu sc with
      | .error e => .error e
      | .ok _ =>
        .ok ⟨pyOrDefault te dte / ebe, none, some ebe, ml, bs, tpu, sc⟩ := by
  unfold Manager.init
  simp only [h1, Bool.false_and, Bool.false_eq_true, if_false,
    pyFloorDiv, hebe, ite_true]

/-- Every successful construction is a step-basis record (non-zero
stored step count, no epoch count) or an epoch-basis record (no step
count, non-zero stored epoch count), with the stated field values. -/
theorem Manager.init_ok_cases (ts : Option Nat) (sbe : Nat) (te : Option Nat)
    (ebe dte bs ml : Nat) (tpu : Bool) (sc : Nat) (m : Manager)
    (h : Manager.init ts sbe te ebe dte bs ml tpu sc = .ok m) :
    (truthy ts = true ∧ sbe ≠ 0 ∧
      m = ⟨ts.getD 0 / sbe, some sbe, none, ml, bs, tpu, sc⟩) ∨
    (truthy ts = false ∧ ebe ≠ 0 ∧
      m = ⟨pyOrDefault te dte / ebe, none, some ebe, ml, bs, tpu, sc⟩) := by
  by_cases h1 : truthy ts = true
  · by_cases h2 : truthy te = true
    · unfold Manager.init at h
      simp [h1, h2] at h
    · rw [Bool.not_eq_true] at h2
      by_cases hsbe : sbe = 0
      · subst hsbe
        unfold Manager.init at h
        simp [h1, h2, pyFloorDiv] at h
      · rw [init_steps_eq ts sbe te ebe dte bs ml tpu sc h1 h2 hsbe] at h
        split at h
        · simp at h
        · injection h with h
          exact Or.inl ⟨h1, hsbe, h.symm⟩
  · rw [Bool.not_eq_true] at h1
    by_cases hebe : ebe = 0
    · subst hebe
      unfold Manager.init at h
      simp [h1, pyFloorDiv] at h
    · rw [init_epochs_eq ts sbe te ebe dte bs ml tpu sc h1 hebe] at h
      split at h
      · simp at h
      · injection h with h
        exact Or.inr ⟨h1, hebe, h.symm⟩

/-- Claim C1: under `use_tpu` (FIXED_STEP), `epochs_to_steps` returns
`floor(dataset_example_count[mode] * max_length * num_epochs /
batch_size)`; without TPU it fails with `PreconditionViolation`. -/
theorem epochs_to_steps_spec (ex : Mode → Nat) (m : Manager)
    (num_epochs : Nat) (mode : Mode) (hb : 0 < m.batch_size) :
    (m.use_tpu = true →
      m.epochs_to_steps ex num_epochs mode =
        .ok (ex mode * m.max_length * num_epochs / m.batch_size)) ∧
    (m.use_tpu = false →
      m.epochs_to_steps ex num_epochs mode =
        .error .preconditionViolation) := by
  constructor
  · intro h
    unfold Manager.epochs_to_steps pyFloorDiv
    have hb' : m.batch_size ≠ 0 := by omega
    simp [h, hb']
  · intro h
    unfold Manager.epochs_to_steps
    simp [h]

/-- Witness for C1 at the spec's sample: 100000 examples, length 64,
batch 2048, one epoch gives 3125 steps, and the non-TPU manager with
the same figures fails. -/
theorem epochs_to_steps_spec_witness :
    (0 < (⟨3, none, some 1, 64, 2048, true, 8⟩ : Manager).batch_size ∧
      ((⟨3, none, some 1, 64, 2048, true, 8⟩ : Manager).use_tpu = true →
        Manager.epochs_to_steps (fun _ => 100000)
          ⟨3, none, some 1, 64, 2048, true, 8⟩ 1 Mode.TRAIN =
          .ok ((fun _ : Mode => 100000) Mode.TRAIN *
            (⟨3, none, some 1, 64, 2048, true, 8⟩ : Manager).max_length * 1 /
            (⟨3, none, some 1, 64, 2048, true, 8⟩ : Manager).batch_size))) ∧
    ((⟨3, none, some 1, 64, 2048, false, 8⟩ : Manager).use_tpu = false →
      Manager.epochs_to_steps (fun _ => 100000)
        ⟨3, none, some 1, 64, 2048, false, 8⟩ 1 Mode.TRAIN =
        .error .preconditionViolation) :=
  ⟨⟨by decide,
    (epochs_to_steps_spec (fun _ => 100000)
      ⟨3, none, some 1, 64, 2048, true, 8⟩ 1 Mode.TRAIN (by decide)).1⟩,
    (epochs_to_steps_spec (fun _ => 100000)
      ⟨3, none, some 1, 64, 2048, false, 8⟩ 1 Mode.TRAIN (by decide)).2⟩

/-- Claim C2: after a successful construction, `train_eval_iterations` is
`train_steps // steps_between_evals` when `train_steps` is supplied
(truthy), and `(train_epochs or default_train_epochs) //
epochs_between_evals` otherwise. -/
theorem train_eval_iterations_spec (ts : Option Nat) (sbe : Nat)
    (te : Option Nat) (ebe dte bs ml : Nat) (tpu : Bool) (sc : Nat)
    (m : Manager) (h : Manager.init ts sbe te ebe dte bs ml tpu sc = .ok m) :
    (truthy ts = true → m.train_eval_iterations = ts.getD 0 / sbe) ∧
    (truthy ts = false →
      m.train_eval_iterations = pyOrDefault te dte / ebe) := by
  rcases Manager.init_ok_cases ts sbe te ebe dte bs ml tpu sc m h with
    ⟨h1, _, hm⟩ | ⟨h1, _, hm⟩ <;> subst hm
  · exact ⟨fun _ => rfl, fun h2 => by simp_all⟩
  · exact ⟨fun h2 => by simp_all, fun _ => rfl⟩

/-- Witness for C2 at the spec's sample: `train_steps = 1000`,
`steps_between_evals = 300` gives three iterations. -/
theorem train_eval_iterations_spec_witness :
    Manager.init (some 1000) 300 none 1 10 2048 64 false 8 =
      .ok ⟨3, some 300, none, 64, 2048, false, 8⟩ ∧
    ((truthy (some 1000) = true →
      (⟨3, some 300, none, 64, 2048, false, 8⟩ : Manager).train_eval_iterations =
        (some 1000 : Option Nat).getD 0 / 300) ∧
    (truthy (some 1000) = false →
      (⟨3, some 300, none, 64, 2048, false, 8⟩ : Manager).train_eval_iterations =
        pyOrDefault none 10 / 1)) :=
  ⟨by rfl,
    train_eval_iterations_spec (some 1000) 300 none 1 10 2048 64 false 8
      ⟨3, some 300, none, 64, 2048, false, 8⟩ (by rfl)⟩

/-- Claim C3: supplying both `train_steps` and `train_epochs` (both truthy)
always fails with `InvalidConfiguration`, whatever the other inputs. -/
theorem init_both_bases_invalid (ts : Option Nat) (sbe : Nat)
    (te : Option Nat) (ebe dte bs ml : Nat) (tpu : Bool) (sc : Nat)
    (hts : truthy ts = true) (hte : truthy te = true) :
    Manager.init ts sbe te ebe dte bs ml tpu sc =
      .error .invalidConfiguration := by
  unfold Manager.init
  simp [hts, hte]

/-- Witness for C3 at a concrete input. -/
theorem init_both_bases_invalid_witness :
    Manager.init (some 1000) 300 (some 5) 1 10 2048 64 true 8 =
      .error .invalidConfiguration :=
  init_both_bases_invalid (some 1000) 300 (some 5) 1 10 2048 64 true 8
    (by decide) (by decide)

/-- Claim C9: under TPU with a positive batch size, `epochs_to_steps` is
monotonically non-decreasing in `num_epochs`. -/
theorem epochs_to_steps_mono (ex : Mode → Nat) (m : Manager) (mode : Mode)
    (n1 n2 : Nat) (htpu : m.use_tpu = true) (hb : 0 < m.batch_size)
    (h12 : n1 ≤ n2) :
    ∃ s1 s2, m.epochs_to_steps ex n1 mode = .ok s1 ∧
      m.epochs_to_steps ex n2 mode = .ok s2 ∧ s1 ≤ s2 := by
  have hb' : m.batch_size ≠ 0 := by omega
  refine ⟨ex mode * m.max_length * n1 / m.batch_size,
    ex mode * m.max_length * n2 / m.batch_size, ?_, ?_, ?_⟩
  · unfold Manager.epochs_to_steps pyFloorDiv
    simp [htpu, hb']
  · unfold Manager.epochs_to_steps pyFloorDiv
    simp [htpu, hb']
  · exact Nat.div_le_div_right (Nat.mul_le_mul_left _ h12)

/-- Witness for C9 at the spec's sample, together with the concrete
value 3125 for one epoch. -/
theorem epochs_to_steps_mono_witness :
    (∃ s1 s2,
      Manager.epochs_to_steps (fun _ => 100000)
        ⟨3, none, some 1, 64, 2048, true, 8⟩ 1 Mode.TRAIN = .ok s1 ∧
      Manager.epochs_to_steps (fun _ => 100000)
        ⟨3, none, some 1, 64, 2048, true, 8⟩ 2 Mode.TRAIN = .ok s2 ∧
      s1 ≤ s2) ∧
    Manager.epochs_to_steps (fun _ => 100000)
      ⟨3, none, some 1, 64, 2048, true, 8⟩ 1 Mode.TRAIN = .ok 3125 :=
  ⟨epochs_to_steps_mono (fun _ => 100000)
    ⟨3, none, some 1, 64, 2048, true, 8⟩ Mode.TRAIN 1 2
    (by decide) (by decide) (by decide), by rfl⟩

/-- Claim C4: with otherwise-valid inputs, construction under TPU
(FIXED_STEP) fails with `InvalidConfiguration` exactly when
`(batch_size // max_length) % num_tpu_shards` is non-zero, and
succeeds when it is zero; without TPU the condition is never checked
and construction succeeds either way. -/
theorem init_shard_check_spec (ts : Option Nat) (sbe : Nat) (te : Option Nat)
    (ebe dte bs ml : Nat) (sc : Nat)
    (hte : truthy ts = true → truthy te = false)
    (hcs : truthy ts = true → sbe ≠ 0)
    (hce : truthy ts = false → ebe ≠ 0)
    (hml : ml ≠ 0) (hsc : sc ≠ 0) :
    (bs / ml % sc ≠ 0 →
      Manager.init ts sbe te ebe dte bs ml true sc =
        .error .invalidConfiguration) ∧
    (bs / ml % sc = 0 →
      ∃ m, Manager.init ts sbe te ebe dte bs ml true sc = .ok m) ∧
    (∃ m, Manager.init ts sbe te ebe dte bs ml false sc = .ok m) := by
  by_cases h1 : truthy ts = true
  · have h2 := hte h1
    have hsbe := hcs h1
    refine ⟨?_, ?_, ?_⟩
    · intro hd
      rw [init_steps_eq ts sbe te ebe dte bs ml true sc h1 h2 hsbe,
        tpuShardCheck_true bs ml sc hml hsc]
      simp [hd]
    · intro hd
      rw [init_steps_eq ts sbe te ebe dte bs ml true sc h1 h2 hsbe,
        tpuShardCheck_true bs ml sc hml hsc, if_pos hd]
      exact ⟨_, rfl⟩
    · rw [init_steps_eq ts sbe te ebe dte bs ml false sc h1 h2 hsbe,
        tpuShardCheck_false]
      exact ⟨_, rfl⟩
  · rw [Bool.not_eq_true] at h1
    have hebe := hce h1
    refine ⟨?_, ?_, ?_⟩
    · intro hd
      rw [init_epochs_eq ts sbe te ebe dte bs ml true sc h1 hebe,
        tpuShardCheck_true bs ml sc hml hsc]
      simp [hd]
    · intro hd
      rw [init_epochs_eq ts sbe te ebe dte bs ml true sc h1 hebe,
        tpuShardCheck_true bs ml sc hml hsc, if_pos hd]
      exact ⟨_, rfl⟩
    · rw [init_epochs_eq ts sbe te ebe dte bs ml false sc h1 hebe,
        tpuShardCheck_false]
      exact ⟨_, rfl⟩

/-- Witness for C4 at the spec's samples: `batch_size = 2048`,
`max_length = 64` succeeds with 8 shards and fails with 7. -/
theorem init_shard_check_spec_witness :
    Manager.init (some 1000) 300 none 1 10 2048 64 true 7 =
      .error .invalidConfiguration ∧
    ∃ m, Manager.init (some 1000) 300 none 1 10 2048 64 true 8 = .ok m :=
  ⟨(init_shard_check_spec (some 1000) 300 none 1 10 2048 64 7
      (fun _ => by decide) (fun _ => by decide) (fun _ => by decide)
      (by decide) (by decide)).1 (by decide),
    (init_shard_check_spec (some 1000) 300 none 1 10 2048 64 8
      (fun _ => by decide) (fun _ => by decide) (fun _ => by decide)
      (by decide) (by decide)).2.1 (by decide)⟩

/-- Claim C5: on a constructed manager, `single_iteration_train_steps`
returns the stored step count in the step basis (either accelerator
mode), `None` in the epoch basis without TPU, and the epoch→step
conversion of the stored epoch count in TRAIN mode in the epoch basis
under TPU. -/
theorem single_iteration_train_steps_spec (ex : Mode → Nat)
    (ts : Option Nat) (sbe : Nat) (te : Option Nat) (ebe dte bs ml : Nat)
    (tpu : Bool) (sc : Nat) (m : Manager)
    (h : Manager.init ts sbe te ebe dte bs ml tpu sc = .ok m) :
    (∀ s, m._single_iteration_train_steps = some s →
      m.single_iteration_train_steps ex = .ok (some s)) ∧
    (m._single_iteration_train_steps = none → m.use_tpu = false →
      m.single_iteration_train_steps ex = .ok none) ∧
    (∀ e, m._single_iteration_train_epochs = some e → m.use_tpu = true →
      m.single_iteration_train_steps ex =
        (m.epochs_to_steps ex e Mode.TRAIN).map some) := by
  rcases Manager.init_ok_cases ts sbe te ebe dte bs ml tpu sc m h with
    ⟨h1, hsbe, hm⟩ | ⟨h1, hebe, hm⟩ <;> subst hm
  · refine ⟨?_, ?_, ?_⟩
    · intro s hs
      injection hs with hs
      subst hs
      unfold Manager.single_iteration_train_steps
      simp [truthy, hsbe]
    · intro hs
      exact absurd hs (by simp)
    · intro e he
      exact absurd he (by simp)
  · refine ⟨?_, ?_, ?_⟩
    · intro s hs
      exact absurd hs (by simp)
    · intro _ htpu
      unfold Manager.single_iteration_train_steps
      simp only at htpu
      subst htpu
      simp [truthy]
    · intro e he htpu
      injection he with he
      subst he
      simp only at htpu
      subst htpu
      unfold Manager.single_iteration_train_steps
      simp [truthy]

/-- Witness for C5: an epoch-basis TPU manager's accessor equals the
conversion; concretely `epochs_between_evals = 2` converts via the
table. -/
theorem single_iteration_train_steps_spec_witness :
    Manager.init none 300 (some 4) 2 10 2048 64 true 8 =
      .ok ⟨2, none, some 2, 64, 2048, true, 8⟩ ∧
    Manager.single_iteration_train_steps (fun _ => 100000)
      ⟨2, none, some 2, 64, 2048, true, 8⟩ =
      (Manager.epochs_to_steps (fun _ => 100000)
        ⟨2, none, some 2, 64, 2048, true, 8⟩ 2 Mode.TRAIN).map some :=
  ⟨by rfl,
    (single_iteration_train_steps_spec (fun _ => 100000) none 300 (some 4) 2
      10 2048 64 true 8 ⟨2, none, some 2, 64, 2048, true, 8⟩ (by rfl)).2.2
      2 rfl rfl⟩

/-- Claim C6: on a constructed manager with a non-empty training split,
`repeat_dataset` returns the stored epoch count in the epoch basis,
the "do not repeat" marker (`None`) in the step basis when the stored
step count is at most the training example count, and the ceiling of
their quotient otherwise. -/
theorem repeat_dataset_spec (ex : Mode → Nat) (ts : Option Nat) (sbe : Nat)
    (te : Option Nat) (ebe dte bs ml : Nat) (tpu : Bool) (sc : Nat)
    (m : Manager) (h : Manager.init ts sbe te ebe dte bs ml tpu sc = .ok m)
    (hex : 0 < ex Mode.TRAIN) :
    (∀ e, m._single_iteration_train_epochs = some e →
      m.repeat_dataset ex = .ok (some e)) ∧
    (∀ s, m._single_iteration_train_steps = some s → s ≤ ex Mode.TRAIN →
      m.repeat_dataset ex = .ok none) ∧
    (∀ s, m._single_iteration_train_steps = some s → s > ex Mode.TRAIN →
      m.repeat_dataset ex = .ok (some (s ⌈/⌉ ex Mode.TRAIN))) := by
  have hex' : ex Mode.TRAIN ≠ 0 := by omega
  rcases Manager.init_ok_cases ts sbe te ebe dte bs ml tpu sc m h with
    ⟨h1, hsbe, hm⟩ | ⟨h1, hebe, hm⟩ <;> subst hm
  · refine ⟨?_, ?_, ?_⟩
    · intro e he
      exact absurd he (by simp)
    · intro s hs hle
      injection hs with hs
      subst hs
      unfold Manager.repeat_dataset
      simp only
      rw [if_neg (by omega)]
    · intro s hs hgt
      injection hs with hs
      subst hs
      unfold Manager.repeat_dataset pyCeilDiv
      simp only
      rw [if_pos hgt, if_neg hex']
      rfl
  · refine ⟨?_, ?_, ?_⟩
    · intro e he
      injection he with he
      subst he
      rfl
    · intro s hs
      exact absurd hs (by simp)
    · intro s hs
      exact absurd hs (by simp)

/-- Witness for C6 at the spec's sample:
`per_iteration_steps = 250000` over `100000` training examples gives a
repeat count of 3, and a step count within the split gives the
marker. -/
theorem repeat_dataset_spec_witness :
    Manager.init (some 1000000) 250000 none 1 10 2048 64 false 8 =
      .ok ⟨4, some 250000, none, 64, 2048, false, 8⟩ ∧
    Manager.repeat_dataset (fun _ => 100000)
      ⟨4, some 250000, none, 64, 2048, false, 8⟩ =
      .ok (some ((250000 : Nat) ⌈/⌉ (100000 : Nat))) ∧
    (250000 : Nat) ⌈/⌉ (100000 : Nat) = 3 :=
  ⟨by rfl,
    (repeat_dataset_spec (fun _ => 100000) (some 1000000) 250000 none 1 10
      2048 64 false 8 ⟨4, some 250000, none, 64, 2048, false, 8⟩ (by rfl)
      (by decide)).2.2 250000 rfl (by decide),
    by rfl⟩

/-- Claim C7: on a constructed manager, `train_increment_str` produces
`"<N> steps."` in the step basis, `"<N> epochs."` in the epoch basis
without TPU, and `"~<N> epochs. (<M> steps)"` in the epoch basis under
TPU, where `M` is the TRAIN-mode conversion of the stored epoch
count. -/
theorem train_increment_str_spec (ex : Mode → Nat) (ts : Option Nat)
    (sbe : Nat) (te : Option Nat) (ebe dte bs ml : Nat) (tpu : Bool)
    (sc : Nat) (m : Manager)
    (h : Manager.init ts sbe te ebe dte bs ml tpu sc = .ok m) :
    (∀ s, m._single_iteration_train_steps = some s →
      m.train_increment_str ex = .ok (toString s ++ " steps.")) ∧
    (∀ e, m._single_iteration_train_epochs = some e → m.use_tpu = false →
      m.train_increment_str ex = .ok (toString e ++ " epochs.")) ∧
    (∀ e M, m._single_iteration_train_epochs = some e → m.use_tpu = true →
      m.epochs_to_steps ex e Mode.TRAIN = .ok M →
      m.train_increment_str ex =
        .ok ("~" ++ toString e ++ " epochs. (" ++ toString M ++
          " steps)")) := by
  rcases Manager.init_ok_cases ts sbe te ebe dte bs ml tpu sc m h with
    ⟨h1, hsbe, hm⟩ | ⟨h1, hebe, hm⟩ <;> subst hm
  · refine ⟨?_, ?_, ?_⟩
    · intro s hs
      injection hs with hs
      subst hs
      unfold Manager.train_increment_str
      simp [truthy, hsbe, pyFormat]
    · intro e he
      exact absurd he (by simp)
    · intro e M he
      exact absurd he (by simp)
  · refine ⟨?_, ?_, ?_⟩
    · intro s hs
      exact absurd hs (by simp)
    · intro e he htpu
      injection he with he
      subst he
      simp only at htpu
      subst htpu
      unfold Manager.train_increment_str
      simp [truthy, pyFormat]
    · intro e M he htpu hM
      injection he with he
      subst he
      simp only at htpu
      subst htpu
      unfold Manager.train_increment_str
        Manager.single_iteration_train_steps
      simp [truthy, pyFormat, hM, Except.map]

/-- Witness for C7: the epoch-basis TPU manager with 2 epochs per
iteration and conversion result 6250 renders the tilde pattern. -/
theorem train_increment_str_spec_witness :
    Manager.init none 300 (some 4) 2 10 2048 64 true 8 =
      .ok ⟨2, none, some 2, 64, 2048, true, 8⟩ ∧
    Manager.train_increment_str (fun _ => 100000)
      ⟨2, none, some 2, 64, 2048, true, 8⟩ =
      .ok ("~" ++ toString 2 ++ " epochs. (" ++ toString 6250 ++
        " steps)") :=
  ⟨by rfl,
    (train_increment_str_spec (fun _ => 100000) none 300 (some 4) 2 10 2048
      64 true 8 ⟨2, none, some 2, 64, 2048, true, 8⟩ (by rfl)).2.2
      2 6250 rfl rfl (by rfl)⟩

/-- Claim C8: every successful construction stores exactly one of
`_single_iteration_train_steps` and `_single_iteration_train_epochs`
as a non-null value (and the embedding is immutable, so this holds for
the manager's whole lifetime). -/
theorem init_exactly_one_basis (ts : Option Nat) (sbe : Nat)
    (te : Option Nat) (ebe dte bs ml : Nat) (tpu : Bool) (sc : Nat)
    (m : Manager) (h : Manager.init ts sbe te ebe dte bs ml tpu sc = .ok m) :
    (m._single_iteration_train_steps ≠ none ∧
      m._single_iteration_train_epochs = none) ∨
    (m._single_iteration_train_steps = none ∧
      m._single_iteration_train_epochs ≠ none) := by
  rcases Manager.init_ok_cases ts sbe te ebe dte bs ml tpu sc m h with
    ⟨_, _, hm⟩ | ⟨_, _, hm⟩ <;> subst hm
  · exact Or.inl ⟨by simp, rfl⟩
  · exact Or.inr ⟨rfl, by simp⟩

/-- Witness for C8 at a concrete step-basis construction. -/
theorem init_exactly_one_basis_witness :
    ((⟨3, some 300, none, 64, 2048, false, 8⟩ :
        Manager)._single_iteration_train_steps ≠ none ∧
      (⟨3, some 300, none, 64, 2048, false, 8⟩ :
        Manager)._single_iteration_train_epochs = none) ∨
    ((⟨3, some 300, none, 64, 2048, false, 8⟩ :
        Manager)._single_iteration_train_steps = none ∧
      (⟨3, some 300, none, 64, 2048, false, 8⟩ :
        Manager)._single_iteration_train_epochs ≠ none) :=
  init_exactly_one_basis (some 1000) 300 none 1 10 2048 64 false 8
    ⟨3, some 300, none, 64, 2048, false, 8⟩ (by rfl)

/-- Claim C10: a zero evaluation cadence in the chosen basis makes
construction fail with the (unguarded) `ZeroDivisionError`, not
`InvalidConfiguration`; consequently every constructed manager stores
a non-zero count in its basis, so the truthiness tests in the
accessors cannot misread the basis. -/
theorem init_zero_cadence_spec (ts : Option Nat) (sbe : Nat)
    (te : Option Nat) (ebe dte bs ml : Nat) (tpu : Bool) (sc : Nat) :
    ((truthy ts = true → truthy te = false → sbe = 0 →
      Manager.init ts sbe te ebe dte bs ml tpu sc =
        .error .zeroDivisionError) ∧
    (truthy ts = false → ebe = 0 →
      Manager.init ts sbe te ebe dte bs ml tpu sc =
        .error .zeroDivisionError)) ∧
    (∀ m, Manager.init ts sbe te ebe dte bs ml tpu sc = .ok m →
      (∀ s, m._single_iteration_train_steps = some s → s ≠ 0) ∧
      (∀ e, m._single_iteration_train_epochs = some e → e ≠ 0)) := by
  refine ⟨⟨?_, ?_⟩, ?_⟩
  · intro h1 h2 hsbe
    subst hsbe
    unfold Manager.init
    simp [h1, h2, pyFloorDiv]
  · intro h1 hebe
    subst hebe
    unfold Manager.init
    simp [h1, pyFloorDiv]
  · intro m h
    rcases Manager.init_ok_cases ts sbe te ebe dte bs ml tpu sc m h with
      ⟨_, hsbe, hm⟩ | ⟨_, hebe, hm⟩ <;> subst hm
    · refine ⟨?_, ?_⟩
      · intro s hs
        injection hs with hs
        omega
      · intro e he
        exact absurd he (by simp)
    · refine ⟨?_, ?_⟩
      · intro s hs
        exact absurd hs (by simp)
      · intro e he
        injection he with he
        omega

/-- Witness for C10: a step-basis construction with
`steps_between_evals = 0` hits the division-by-zero error, and a
normal construction stores a non-zero step count. -/
theorem init_zero_cadence_spec_witness :
    Manager.init (some 1000) 0 none 1 10 2048 64 false 8 =
      .error .zeroDivisionError ∧
    (300 : Nat) ≠ 0 :=
  ⟨(init_zero_cadence_spec (some 1000) 0 none 1 10 2048 64 false
      8).1.1 rfl rfl rfl,
    ((init_zero_cadence_spec (some 1000) 300 none 1 10 2048 64 false
      8).2 ⟨3, some 300, none, 64, 2048, false, 8⟩ (by rfl)).1 300 rfl⟩

end Schedule
